import Mathlib

/-!
# Verification of the repomgmt build scheduler and build-node lifecycle

Shallow embedding of the scheduler core of `repomgmt/models.py`:
`BuildRecord` (job queue rows, atomic claim via a conditional update),
`BuildNode` (leased VM lifecycle: start_new / prepare / build / delete),
and the remote command transport (`run_cmd` / `_run_cmd`).

The Django ORM durable store is modelled as an explicit `Store` value holding
the table rows; every ORM write becomes a pure function from `Store` to
`Store`.  External collaborators (the cloud API, the ssh channel, remote
commands, the local gpg keyring) are modelled by oracles (functions `Nat →
Bool` saying whether the n-th external action succeeds) and by explicit
inventory lists inside `Store` (provider-side servers and key pairs).
Python exceptions are modelled with `Except String`; a raised-and-caught
exception never shows up in the result type, an uncaught one is `.error`.
Loops with no intrinsic bound (the connectivity wait in `prepare`, the
random-name probing loops) take fuel and return `none` on exhaustion,
standing for divergence.
-/

namespace Repomgmt

/-- `BuildRecord` state constants (models.py:391-398). -/
def BuildRecordState.BUILDING : Nat := 1
def BuildRecordState.SUCCESFULLY_BUILT : Nat := 2
def BuildRecordState.CHROOT_PROBLEM : Nat := 3
def BuildRecordState.BUILD_FOR_SUPERSEDED_SOURCE : Nat := 4
def BuildRecordState.FAILED_TO_BUILD : Nat := 5
def BuildRecordState.DEPENDENCY_WAIT : Nat := 6
def BuildRecordState.FAILED_TO_UPLOAD : Nat := 7
def BuildRecordState.NEEDS_BUILDING : Nat := 8

/-- `BuildNode` state constants (models.py:524-529). -/
def BuildNodeState.NEW : Nat := 0
def BuildNodeState.BOOTING : Nat := 1
def BuildNodeState.PREPARING : Nat := 2
def BuildNodeState.READY : Nat := 3
def BuildNodeState.BUILDING : Nat := 4
def BuildNodeState.SHUTTING_DOWN : Nat := 5

/-- One `BuildRecord` table row (models.py:390-419).  `build_node` stores the
referenced node primary key (`BuildNode.name`), `none` when NULL.  The
`series` foreign key is kept as an opaque key; the `Architecture` foreign
key is inlined as the architecture name plus its `builds_arch_all` flag. -/
structure BuildRecordRow where
  id : Nat
  source_package_name : String
  version : String
  architecture : String
  builds_arch_all : Bool
  state : Nat
  priority : Int
  series : String
  build_node : Option String
  created : Nat
deriving DecidableEq

/-- One `BuildNode` table row (models.py:523-545).  Its primary key is
`name` (models.py:540, `primary_key=True`): the table has no implicit
integer `id` column. -/
structure BuildNodeRow where
  name : String
  cloud : String
  cloud_node_id : String
  state : Nat
  signing_key_id : String
deriving DecidableEq

/-- One `KeyPair` table row (models.py:509-520): the provider ssh key pair
cached per cloud. -/
structure KeyPairRow where
  cloud : String
  name : String
  private_key : String
  public_key : String
deriving DecidableEq

/-- The durable store plus the provider-side inventories the code reads and
writes through the cloud client: `cloudServers` holds `(cloud name, server
id)` for every live VM, `providerKeyPairs` holds `(cloud name, keypair
name)` for every provider-side key pair, `clouds` the configured cloud
names, and `keyring` the key ids present in the local gpg keyring. -/
structure Store where
  buildRecords : List BuildRecordRow
  buildNodes : List BuildNodeRow
  keyPairs : List KeyPairRow
  clouds : List String
  cloudServers : List (String × String)
  providerKeyPairs : List (String × String)
  keyring : List String
deriving DecidableEq

deriving instance DecidableEq for Except

/-- Deployment settings consulted by the code (`settings.USE_FLOATING_IPS`,
models.py:691,737,744). -/
structure Config where
  useFloatingIps : Bool
deriving DecidableEq

/-- `BuildRecord.pending_builds` (models.py:437-440):
`objects.filter(state=NEEDS_BUILDING, build_node__isnull=True)`. -/
def pending_builds (s : Store) : List BuildRecordRow :=
  s.buildRecords.filter
    (fun r => r.state == BuildRecordState.NEEDS_BUILDING && r.build_node.isNone)

/-- The conditional update at the heart of `pick_build` (models.py:466-468):
`objects.filter(id=next_build.id, build_node__isnull=True).update(build_node=build_node)`.
A Django queryset `update` is one atomic statement on the store; it returns
the number of rows it changed.  Only rows whose `build_node` is still NULL
match. -/
def condUpdate (s : Store) (recId : Nat) (node : String) : Store × Nat :=
  let nMatch :=
    (s.buildRecords.filter (fun r => r.id == recId && r.build_node.isNone)).length
  ({ s with buildRecords :=
      s.buildRecords.map (fun r =>
        if r.id == recId && r.build_node.isNone then
          { r with build_node := some node }
        else r) },
   nMatch)

/-- `cls.objects.get(id=recId)` on BuildRecord (models.py:474): the first
row with that id (`none` models `DoesNotExist`). -/
def objectsGet (s : Store) (recId : Nat) : Option BuildRecordRow :=
  s.buildRecords.find? (fun r => r.id == recId)

/-- `builds.order_by('-priority')` (models.py:460): the pending rows sorted
by descending priority. -/
def orderByPriorityDesc (l : List BuildRecordRow) : List BuildRecordRow :=
  l.insertionSort (fun a b => b.priority ≤ a.priority)

/-- `BuildRecord.pick_build` (models.py:454-474).  One loop iteration reads
the pending set, takes the head of the descending-priority ordering
(`IndexError` on an empty set returns `None`, models.py:461-462), attempts
the conditional update, retries on a lost race (`nMatch != 1`), and
re-fetches the claimed row on success.  The loop has no intrinsic bound, so
it takes fuel; `none` is divergence, `some (res, s)` is a normal return of
`res` with final store `s`. -/
def pick_build : Nat → Store → String → Option (Option BuildRecordRow × Store)
  | 0, _, _ => none
  | fuel + 1, s, node =>
    match (orderByPriorityDesc (pending_builds s)).head? with
    | none => some (none, s)
    | some next_build =>
      if (condUpdate s next_build.id node).2 ≠ 1 then
        pick_build fuel (condUpdate s next_build.id node).1 node
      else
        some (objectsGet (condUpdate s next_build.id node).1 next_build.id,
              (condUpdate s next_build.id node).1)

/-- An interleaving of the atomic claim steps of concurrently running
`pick_build` calls: each list element `(recId, node)` is one caller's
conditional update (the sole mutation in `pick_build`), executed atomically
in list order.  Returns the final store and the sub-list of steps whose
update reported exactly one changed row — the steps whose caller won its
claim (models.py:471-474). -/
def runClaims : Store → List (Nat × String) → Store × List (Nat × String)
  | s, [] => (s, [])
  | s, (recId, node) :: rest =>
    ((runClaims (condUpdate s recId node).1 rest).1,
     if (condUpdate s recId node).2 = 1 then
       (recId, node) :: (runClaims (condUpdate s recId node).1 rest).2
     else
       (runClaims (condUpdate s recId node).1 rest).2)

/-- The rows of the store carry pairwise distinct ids (Django's `id`
AutoField is a primary key, so this holds of every real table state). -/
def uniqueIds (s : Store) : Prop :=
  s.buildRecords.Pairwise (fun a b => a.id ≠ b.id)

instance (s : Store) : Decidable (uniqueIds s) := by
  unfold uniqueIds
  infer_instance

/-- `BuildRecord.update_state` (models.py:432-435):
`objects.filter(id=self.id).update(state=new_state)` followed by
`self.state = new_state` on the cached object.  `BuildRecord` has no
explicit primary key, so Django supplies the implicit `id` AutoField and
both the instance attribute and the filter keyword resolve. -/
def BuildRecord.update_state (s : Store) (self : BuildRecordRow) (new_state : Nat) :
    Store × BuildRecordRow :=
  ({ s with buildRecords := s.buildRecords.map (fun r =>
      if r.id == self.id then { r with state := new_state } else r) },
   { self with state := new_state })

/-- The attributes a `BuildNode` instance carries: exactly its model fields
(models.py:540-545).  Django adds the implicit integer `id` primary key
only to models in which no field declares `primary_key=True`;
`BuildNode.name` does (models.py:540), so `BuildNode` has no `id` field
and its instances have no `id` attribute. -/
def BuildNode.fieldNames : List String :=
  ["name", "cloud", "cloud_node_id", "state", "signing_key_id"]

/-- Whether `self.id` resolves on a `BuildNode` instance. -/
def BuildNode.hasIdAttr : Bool := BuildNode.fieldNames.contains "id"

/-- `BuildNode.update_state` (models.py:571-574):
`self.__class__.objects.filter(id=self.id).update(state=new_state)`.
Python evaluates the argument `self.id` before the queryset is built;
since `BuildNode` has no `id` attribute (see `BuildNode.fieldNames`) that
lookup raises `AttributeError` and neither the durable row nor the cached
object is ever modified. -/
def BuildNode.update_state (s : Store) (self : BuildNodeRow) (new_state : Nat) :
    Except String (Store × BuildNodeRow) :=
  if BuildNode.hasIdAttr then
    -- dead branch: `BuildNode.fieldNames` does not contain "id"
    .ok (s, { self with state := new_state })
  else
    .error "AttributeError: BuildNode object has no attribute id"

/-- Django `Model.save()` on a `BuildNode` instance (used by `prepare`,
models.py:578,588,616): writes every field of the cached object to the row
whose primary key (`name`) matches, inserting the row if absent. -/
def BuildNode.save (s : Store) (self : BuildNodeRow) : Store :=
  if s.buildNodes.any (fun n => n.name == self.name) then
    { s with buildNodes := s.buildNodes.map (fun n =>
        if n.name == self.name then self else n) }
  else
    { s with buildNodes := s.buildNodes ++ [self] }

/-- `BuildNode.run_cmd` (models.py:787-815), a generator over the ssh
channel.  The channel is modelled by the list of successive non-empty
`recv` chunks and the remote exit status.  The select loop yields each
available chunk as it arrives; an empty `recv` breaks out with no status
check (models.py:805-807, paramiko signals end-of-stream this way only
once the buffered data is gone); once no more data is ready it reads the
exit status and raises `Exception('Command %s failed' % cmd)` when it is
non-zero (models.py:810-813).  Result: the chunks yielded to the consumer,
and the uncaught exception if one was raised after them. -/
def runCmdGen (cmd : String) : List String → Int → List String × Option String
  | [], status =>
    ([], if status ≠ 0 then some ("Command " ++ cmd ++ " failed") else none)
  | chunk :: rest, status =>
    if chunk.length == 0 then ([], none)
    else
      (chunk :: (runCmdGen cmd rest status).1, (runCmdGen cmd rest status).2)

/-- `BuildNode._run_cmd` (models.py:550-569): consumes the `run_cmd`
generator, accumulating the chunks into `out` (and logging whole lines as
they complete — the logging has no further effect and is dropped here).
If the generator raises, the `for` loop propagates the exception and the
accumulated value is lost to this caller; otherwise the full combined
output is returned. -/
def runCmdAccum (cmd : String) (chunks : List String) (status : Int) :
    Except String String :=
  match (runCmdGen cmd chunks status).2 with
  | some msg => .error msg
  | none => .ok (String.join (runCmdGen cmd chunks status).1)

/-- `BuildNode.cloud_server` (models.py:729-733):
`client.servers.get(self.cloud_node_id)`.  The model keeps only the
existence of the handle: the provider returns it when the VM is in its
inventory and raises `NotFound` when it is not (a VM that was already
deleted cannot be looked up). -/
def cloud_server (s : Store) (self : BuildNodeRow) : Except String Unit :=
  if s.cloudServers.contains (self.cloud, self.cloud_node_id) then .ok ()
  else .error ("NotFound: instance " ++ self.cloud_node_id ++ " could not be found")

/-- `BuildNode.delete` (models.py:743-769), in source order: the floating-ip
branch reads `self.ip` (which resolves the server through `cloud_server`,
models.py:736-741) and releases the address; then `self.cloud_server.delete()`
removes the VM; then, if a signing key was generated, `gpg --batch --yes
--delete-keys` revokes it from the local keyring (the keyring collaborator
is modelled as total removal); then every `BuildRecord` still referencing
this node gets `build_node=None`; finally the durable `BuildNode` row is
removed.  An exception from the cloud lookups aborts the method before any
durable effect; the result carries the final store and the uncaught
exception, if any. -/
def BuildNode.delete (cfg : Config) (s : Store) (self : BuildNodeRow) :
    Store × Option String :=
  match (if cfg.useFloatingIps then cloud_server s self else .ok () : Except String Unit) with
  | .error e => (s, some e)
  | .ok _ =>
    match cloud_server s self with
    | .error e => (s, some e)
    | .ok _ =>
      let s : Store :=
        { s with cloudServers :=
            s.cloudServers.filter (fun p => p != (self.cloud, self.cloud_node_id)) }
      let s : Store :=
        { s with keyring :=
            if self.signing_key_id ≠ "" then
              s.keyring.filter (fun k => k != self.signing_key_id)
            else s.keyring }
      let s : Store :=
        { s with buildRecords :=
            s.buildRecords.map (fun r =>
              if r.build_node == some self.name then { r with build_node := none }
              else r) }
      let s : Store :=
        { s with buildNodes := s.buildNodes.filter (fun n => n.name != self.name) }
      (s, none)

/-- The connectivity wait at the top of `prepare` (models.py:580-586):
`while True: try: self._run_cmd('id'); break except Exception, e: print e;
time.sleep(5)`.  `probe n` says whether the n-th identity probe succeeds;
each failed probe is followed by a fixed `time.sleep(5)`.  The loop has no
timeout or attempt ceiling, so it takes fuel: `none` is divergence,
`some (k, slept)` means probe `k` succeeded after `k` failures and `slept`
seconds of backoff. -/
def connectivity_wait (probe : Nat → Bool) : Nat → Nat → Nat → Option (Nat × Nat)
  | 0, _, _ => none
  | fuel + 1, n, slept =>
    if probe n then some (n, slept)
    else connectivity_wait probe fuel (n + 1) (slept + 5)

/-- `BuildNode.prepare` (models.py:576-621).  `probe` drives the
connectivity wait; `steps i` says whether the i-th subsequent action
succeeds (`false` = it raised): 0 `apt-get update`, 1 `apt-get install
puppet`, 2 `wget puppet.pp`, 3 `puppet apply`, 4 the keygen.param heredoc,
5 `gpg --gen-key`, 6 remote `gpg -a --export`, 7 the local `gpg --import`,
8 `repository.write_configuration()`.  `keyIdOut` is the key id recovered
by scanning the gen-key output for a line starting `gpg: key `
(models.py:606-608); `none` means no line matched, so the read of the
never-bound `key_id` local raises `NameError` (models.py:609).  The whole
body after the first `save` sits in `try: ... except Exception: log;
self.delete()` (models.py:579,618-621).  Result `none` is divergence in
the connectivity wait; `some (store, cachedSelf, uncaughtError,
raisedAny)` otherwise, where `raisedAny` records whether any exception was
raised during the run (including probe exceptions caught inside the wait
loop). -/
def prepare (cfg : Config) (fuel : Nat) (probe : Nat → Bool) (steps : Nat → Bool)
    (keyIdOut : Option String) (s : Store) (self : BuildNodeRow)
    (_build_record : BuildRecordRow) :
    Option (Store × BuildNodeRow × Option String × Bool) :=
  let sB := BuildNode.save s { self with state := BuildNodeState.BOOTING }
  match connectivity_wait probe fuel 0 0 with
  | none => none
  | some (k, _slept) =>
    let probeRaised := decide (0 < k)
    let selfP := { self with state := BuildNodeState.PREPARING }
    let sP := BuildNode.save sB selfP
    -- the remote bootstrap commands have no durable-store effect, so the
    -- first failing step routes to the shared handler with the store as-is
    if steps 0 && steps 1 && steps 2 && steps 3 && steps 4 && steps 5 then
      match keyIdOut with
      | none =>
        some ((BuildNode.delete cfg sP selfP).1, selfP,
              (BuildNode.delete cfg sP selfP).2, true)
      | some kid =>
        let selfK := { self with state := BuildNodeState.PREPARING,
                                 signing_key_id := kid }
        if steps 6 && steps 7 then
          let s2 := { sP with keyring := kid :: sP.keyring }
          let selfR := { self with state := BuildNodeState.READY,
                                   signing_key_id := kid }
          let s3 := BuildNode.save s2 selfR
          if steps 8 then
            some (s3, selfR, none, probeRaised)
          else
            some ((BuildNode.delete cfg s3 selfR).1, selfR,
                  (BuildNode.delete cfg s3 selfR).2, true)
        else
          some ((BuildNode.delete cfg sP selfK).1, selfK,
                (BuildNode.delete cfg sP selfK).2, true)
    else
      some ((BuildNode.delete cfg sP selfP).1, selfP,
            (BuildNode.delete cfg sP selfP).2, true)

/-- `BuildNode.build` (models.py:623-645).  `cmdOk i` gives the outcome of
the i-th remote command (0 `mkdir build`, 1 the `sbuild` invocation, 2 the
`dput` upload); those sit in `try: ... except Exception: pass` and have no
durable-store effect, so their failures are swallowed (models.py:626-642).
The method begins with `self.update_state(BuildNode.BUILDING)`
(models.py:624), which raises `AttributeError` (see
`BuildNode.update_state`); the exception propagates to the caller. -/
def BuildNode.build (cmdOk : Nat → Bool) (s : Store) (self : BuildNodeRow)
    (build_record : BuildRecordRow) :
    Except String (Store × BuildNodeRow × BuildRecordRow) := do
  let (s, self) ← BuildNode.update_state s self BuildNodeState.BUILDING
  let (s, build_record) := BuildRecord.update_state s build_record BuildRecordState.BUILDING
  let _swallowed := cmdOk 0 && cmdOk 1 && cmdOk 2
  let (s, build_record) :=
    BuildRecord.update_state s build_record BuildRecordState.SUCCESFULLY_BUILT
  let (s, self) ← BuildNode.update_state s self BuildNodeState.SHUTTING_DOWN
  return (s, self, build_record)

/-- The generate-and-check naming loops `get_unique_keypair_name` and
`get_unique_buildnode_name` (models.py:647-663): draw
`'buildd-%d' % random.randint(1, 1000)` from the random supply until the
name avoids the given set.  Fueled; returns the fresh name and the next
supply index. -/
def pickFreshName (avoid : List String) (rand : Nat → Nat) :
    Nat → Nat → Option (String × Nat)
  | 0, _ => none
  | fuel + 1, i =>
    let name := "buildd-" ++ toString (rand i)
    if avoid.contains name then pickFreshName avoid rand fuel (i + 1)
    else some (name, i + 1)

/-- `cloud.keypair_set.count()` (models.py:670): durable `KeyPair` rows for
this cloud. -/
def keypair_set_count (s : Store) (cloudName : String) : Nat :=
  (s.keyPairs.filter (fun k => k.cloud == cloudName)).length

/-- `[kp.name for kp in cl.keypairs.list()]` (models.py:649): provider-side
keypair names on this cloud. -/
def providerKeyPairNames (s : Store) (cloudName : String) : List String :=
  (s.providerKeyPairs.filter (fun p => p.1 == cloudName)).map (fun p => p.2)

/-- `[srv.name for srv in cl.servers.list()]` (models.py:657): the model
identifies a server's provider id with its name. -/
def serverNames (s : Store) (cloudName : String) : List String :=
  (s.cloudServers.filter (fun p => p.1 == cloudName)).map (fun p => p.2)

/-- The remainder of `BuildNode.start_new` after the keypair phase
(models.py:684-727): a fresh node name is chosen (avoiding both the
provider server inventory and the durable `BuildNode` names), the VM is
created (`cl.servers.create`; the model identifies the provider id with
the server name), the floating-ip branch either succeeds or deletes the
just-created VM and raises `Exception('Failed to spawn node')`
(models.py:715-723), and on success a `BuildNode` row is saved in state
`NEW`.  The flavor and image lookups (models.py:685-686) have no durable
effect.  `i` is the next index into the random supply. -/
def start_new_rest (cfg : Config) (rand : Nat → Nat) (fuel : Nat) (floatOk : Bool)
    (s : Store) (cloudName : String) (i : Nat) :
    Option (Store × Except String BuildNodeRow) :=
  match pickFreshName (serverNames s cloudName ++ s.buildNodes.map (fun n => n.name))
      rand fuel i with
  | none => none
  | some (nodeName, _) =>
    let s1 : Store := { s with cloudServers := s.cloudServers ++ [(cloudName, nodeName)] }
    if cfg.useFloatingIps && !floatOk then
      some ({ s1 with cloudServers :=
                s1.cloudServers.filter (fun p => p != (cloudName, nodeName)) },
            .error "Failed to spawn node")
    else
      some (BuildNode.save s1 ⟨nodeName, cloudName, nodeName, BuildNodeState.NEW, ""⟩,
            .ok ⟨nodeName, cloudName, nodeName, BuildNodeState.NEW, ""⟩)

/-- `BuildNode.start_new` (models.py:665-727).  `random.choice` over the
configured clouds is a parameter (`cloudName`); `rand` is the random
supply for the naming loops; `floatOk` is the outcome of the bounded
20-second floating-ip attach window (models.py:702-710).  If the cloud has
no cached `KeyPair` row, a provider keypair is created and mirrored as a
durable `KeyPair` row; otherwise the first cached one is reused with no
write (models.py:670-682).  The result carries the final store in both
outcomes (a Python raise does not roll back the store); `none` is
divergence of a naming loop. -/
def BuildNode.start_new (cfg : Config) (rand : Nat → Nat) (fuel : Nat)
    (floatOk : Bool) (s : Store) (cloudName : String) :
    Option (Store × Except String BuildNodeRow) :=
  if keypair_set_count s cloudName < 1 then
    match pickFreshName (providerKeyPairNames s cloudName) rand fuel 0 with
    | none => none
    | some (kpName, i) =>
      start_new_rest cfg rand fuel floatOk
        { s with
            providerKeyPairs := s.providerKeyPairs ++ [(cloudName, kpName)],
            keyPairs := s.keyPairs ++
              [⟨cloudName, kpName, "priv-" ++ kpName, "pub-" ++ kpName⟩] }
        cloudName i
  else
    start_new_rest cfg rand fuel floatOk s cloudName 0

/-- The store `prepare` leaves behind on its fully successful path: the
node saved through `BOOTING` and `PREPARING`, the generated public key
imported into the local keyring, and the node saved once more in `READY`
carrying its signing key id. -/
def prepareReadyStore (s : Store) (self : BuildNodeRow) (kid : String) : Store :=
  let sP := BuildNode.save
              (BuildNode.save s { self with state := BuildNodeState.BOOTING })
              { self with state := BuildNodeState.PREPARING }
  BuildNode.save { sP with keyring := kid :: sP.keyring }
    { self with state := BuildNodeState.READY, signing_key_id := kid }

/-! ## Derived predicates and concrete stores for the verification -/

/-- Every `BuildRecord` row with id `i` already has an assigned node. -/
def allAssigned (s : Store) (i : Nat) : Prop :=
  ∀ r ∈ s.buildRecords, r.id = i → r.build_node.isSome

instance (s : Store) (i : Nat) : Decidable (allAssigned s i) := by
  unfold allAssigned
  infer_instance

instance : IsTotal BuildRecordRow (fun a b => b.priority ≤ a.priority) :=
  ⟨fun a b => le_total b.priority a.priority⟩

instance : IsTrans BuildRecordRow (fun a b => b.priority ≤ a.priority) :=
  ⟨fun _ _ _ hab hbc => le_trans hbc hab⟩

/-- A record-row literal for concrete test stores: pending unless a node is
given. -/
def sampleRec (i : Nat) (p : Int) (bn : Option String) : BuildRecordRow :=
  ⟨i, "pkg", "1.0", "amd64", false, BuildRecordState.NEEDS_BUILDING, p, "trunk", bn, 0⟩

/-- A store in which record 1 is already claimed by node `buildd-7`. -/
def sampleClaimedStore : Store :=
  ⟨[sampleRec 1 50 (some "buildd-7")], [⟨"buildd-7", "c1", "buildd-7", 0, ""⟩],
   [], ["c1"], [("c1", "buildd-7")], [], []⟩

/-- A store with three pending records of priorities 10, 50, 30 (insertion
order deliberately not priority order). -/
def samplePendingStore : Store :=
  ⟨[sampleRec 1 10 none, sampleRec 2 50 none, sampleRec 3 30 none],
   [], [], ["c1"], [("c1", "buildd-7")], [], []⟩

/-! ## The claim step is exclusive (C1) -/

lemma condUpdate_preserves_assigned {s : Store} {i : Nat} (j : Nat) (n : String)
    (h : allAssigned s i) : allAssigned (condUpdate s j n).1 i := by
  intro r hr hid
  simp only [condUpdate, List.mem_map] at hr
  obtain ⟨r0, hr0, hmap⟩ := hr
  by_cases hp : (r0.id == j && r0.build_node.isNone) = true
  · simp only [hp, if_true] at hmap
    subst hmap
    simp
  · simp only [hp, if_false, Bool.false_eq_true] at hmap
    subst hmap
    exact h r0 hr0 hid

lemma condUpdate_nMatch_zero {s : Store} {i : Nat} (n : String)
    (h : allAssigned s i) : (condUpdate s i n).2 = 0 := by
  simp only [condUpdate, List.length_eq_zero, List.filter_eq_nil_iff]
  intro r hr
  simp only [Bool.and_eq_true, beq_iff_eq, Option.isNone_iff_eq_none, not_and]
  intro hid hnone
  have := h r hr hid
  simp [hnone] at this

lemma condUpdate_allAssigned (s : Store) (i : Nat) (n : String) :
    allAssigned (condUpdate s i n).1 i := by
  intro r hr hid
  simp only [condUpdate, List.mem_map] at hr
  obtain ⟨r0, hr0, hmap⟩ := hr
  by_cases hp : (r0.id == i && r0.build_node.isNone) = true
  · simp only [hp, if_true] at hmap
    subst hmap
    simp
  · simp only [hp, if_false, Bool.false_eq_true] at hmap
    subst hmap
    cases hb : r0.build_node with
    | none => simp [Bool.and_eq_true, beq_iff_eq, hid, hb] at hp
    | some v => simp

lemma condUpdate_mem_of_assigned {s : Store} {r : BuildRecordRow}
    (hr : r ∈ s.buildRecords) (h : r.build_node.isSome) (j : Nat) (n : String) :
    r ∈ (condUpdate s j n).1.buildRecords := by
  simp only [condUpdate]
  refine List.mem_map.mpr ⟨r, hr, ?_⟩
  have hfalse : (r.id == j && r.build_node.isNone) = false := by
    cases hb : r.build_node with
    | none => simp [hb] at h
    | some v => simp [hb]
  simp [hfalse]

/-- **C1.** Claiming a `BuildRecord` is exclusive.  For every interleaving
`trace` of the atomic conditional-update steps of concurrently running
`pick_build` calls (each `(recId, node)` entry one caller's
`update(build_node=...)`, executed atomically in list order), and every
record id `i`: at most one step in the interleaving wins record `i`; once
the record is assigned (in particular, right after some step's update set
its `build_node`), no later conditional update can match it again — a
claimed state makes every subsequent claim of that record report zero
matched rows, so its would-be claimer re-scans — and an assigned row
passes through the whole interleaving unchanged, so every `BuildRecord`
ends assigned to at most one `BuildNode`. -/
theorem pick_build_claim_exclusive (s : Store) (trace : List (Nat × String)) (i : Nat) :
    ((runClaims s trace).2.filter (fun p => p.1 == i)).length ≤ 1 ∧
    (allAssigned s i → (runClaims s trace).2.filter (fun p => p.1 == i) = []) ∧
    (∀ r ∈ s.buildRecords, r.build_node.isSome → r ∈ (runClaims s trace).1.buildRecords) := by
  induction trace generalizing s with
  | nil =>
    refine ⟨by simp [runClaims], fun _ => by simp [runClaims], ?_⟩
    intro r hr _
    simpa [runClaims] using hr
  | cons step rest ih =>
    obtain ⟨j, n⟩ := step
    refine ⟨?_, ?_, ?_⟩
    · by_cases hm : (condUpdate s j n).2 = 1
      · by_cases hj : j = i
        · subst hj
          have hall : allAssigned (condUpdate s j n).1 j := condUpdate_allAssigned s j n
          have hrest := (ih ((condUpdate s j n).1)).2.1 hall
          simp [runClaims, hm, hrest]
        · have := (ih ((condUpdate s j n).1)).1
          simpa [runClaims, hm, hj] using this
      · have := (ih ((condUpdate s j n).1)).1
        simpa [runClaims, hm] using this
    · intro h
      have h1 : allAssigned (condUpdate s j n).1 i := condUpdate_preserves_assigned j n h
      have hrest := (ih ((condUpdate s j n).1)).2.1 h1
      by_cases hj : j = i
      · subst hj
        have hm : (condUpdate s j n).2 = 0 := condUpdate_nMatch_zero n h
        simp [runClaims, hm, hrest]
      · by_cases hm : (condUpdate s j n).2 = 1 <;>
          simp [runClaims, hm, hj, hrest]
    · intro r hr hsome
      have h1 : r ∈ (condUpdate s j n).1.buildRecords :=
        condUpdate_mem_of_assigned hr hsome j n
      have := (ih ((condUpdate s j n).1)).2.2 r h1 hsome
      simpa [runClaims] using this

/-! ## pick_build selects the highest-priority pending record (C2) -/

lemma orderByPriorityDesc_head {l : List BuildRecordRow} {r0 : BuildRecordRow}
    (h : (orderByPriorityDesc l).head? = some r0) :
    r0 ∈ l ∧ ∀ b ∈ l, b.priority ≤ r0.priority := by
  unfold orderByPriorityDesc at h
  cases hs : l.insertionSort (fun a b => b.priority ≤ a.priority) with
  | nil => rw [hs] at h; simp at h
  | cons a tl =>
    rw [hs] at h
    simp only [List.head?_cons, Option.some.injEq] at h
    have hsorted := List.sorted_insertionSort (fun a b => b.priority ≤ a.priority) l
    rw [hs] at hsorted
    have hmem : r0 ∈ l := by
      have ha : a ∈ l.insertionSort (fun a b => b.priority ≤ a.priority) := by
        rw [hs]; exact List.mem_cons_self _ _
      rw [h] at ha
      simpa using ha
    refine ⟨hmem, ?_⟩
    intro b hb
    have hb2 : b ∈ l.insertionSort (fun a b => b.priority ≤ a.priority) := by
      simpa using hb
    rw [hs] at hb2
    rcases List.mem_cons.mp hb2 with hEq | htl
    · rw [hEq, h]
    · have hrel := List.rel_of_sorted_cons hsorted b htl
      rw [h] at hrel
      exact hrel

lemma orderByPriorityDesc_head_none {l : List BuildRecordRow}
    (h : (orderByPriorityDesc l).head? = none) : l = [] := by
  unfold orderByPriorityDesc at h
  have hperm := List.perm_insertionSort (fun a b => b.priority ≤ a.priority) l
  cases hs : l.insertionSort (fun a b => b.priority ≤ a.priority) with
  | nil => rw [hs] at hperm; exact hperm.symm.eq_nil
  | cons a tl => rw [hs] at h; simp at h

lemma filter_id_pending_len_one {l : List BuildRecordRow} {r0 : BuildRecordRow}
    (pw : l.Pairwise (fun a b => a.id ≠ b.id)) (hmem : r0 ∈ l)
    (hnone : r0.build_node = none) :
    (l.filter (fun r => r.id == r0.id && r.build_node.isNone)).length = 1 := by
  induction l with
  | nil => simp at hmem
  | cons a tl ih =>
    rcases List.pairwise_cons.mp pw with ⟨ha, pwtl⟩
    rcases List.mem_cons.mp hmem with hEq | htl
    · subst hEq
      have hz : (tl.filter (fun r => r.id == r0.id && r.build_node.isNone)) = [] := by
        rw [List.filter_eq_nil_iff]
        intro b hb
        have : r0.id ≠ b.id := ha b hb
        simp [this.symm]
      simp [List.filter_cons, hnone, hz]
    · have hne : a.id ≠ r0.id := ha r0 htl
      have hneg : (a.id == r0.id) = false := by simp [hne]
      simp only [List.filter_cons, hneg, Bool.false_and, Bool.false_eq_true, if_false]
      exact ih pwtl htl

lemma find_after_condUpdate {l : List BuildRecordRow} {r0 : BuildRecordRow} (node : String)
    (pw : l.Pairwise (fun a b => a.id ≠ b.id)) (hmem : r0 ∈ l)
    (hnone : r0.build_node = none) :
    (l.map (fun r =>
        if r.id == r0.id && r.build_node.isNone then { r with build_node := some node }
        else r)).find? (fun r => r.id == r0.id)
      = some { r0 with build_node := some node } := by
  induction l with
  | nil => simp at hmem
  | cons a tl ih =>
    rcases List.pairwise_cons.mp pw with ⟨ha, pwtl⟩
    rcases List.mem_cons.mp hmem with hEq | htl
    · subst hEq
      simp [hnone]
    · have hne : a.id ≠ r0.id := ha r0 htl
      have hpred : (a.id == r0.id && a.build_node.isNone) = false := by simp [hne]
      simp only [List.map_cons, hpred, Bool.false_eq_true, if_false]
      rw [List.find?_cons_of_neg _ (by simp [hne])]
      exact ih pwtl htl

/-- **C2.** For every store with well-formed (pairwise distinct) record
ids, `pick_build` run with any node selects among the `NEEDS_BUILDING`
records with no assigned node the one with the numerically highest
priority (position in the table is irrelevant), claims it for the node,
and returns the re-fetched claimed row; when the candidate set is empty it
returns `None` ("no work") and leaves the store unchanged.  One loop
iteration suffices in the absence of interference, so any positive fuel
returns. -/
theorem pick_build_picks_highest_priority (s : Store) (node : String) (fuel : Nat)
    (h : uniqueIds s) :
    (pending_builds s = [] → pick_build (fuel + 1) s node = some (none, s)) ∧
    (pending_builds s ≠ [] →
      ∃ r0 ∈ pending_builds s,
        (∀ b ∈ pending_builds s, b.priority ≤ r0.priority) ∧
        pick_build (fuel + 1) s node =
          some (some { r0 with build_node := some node },
                (condUpdate s r0.id node).1)) := by
  constructor
  · intro hemp
    simp [pick_build, hemp, orderByPriorityDesc, List.insertionSort]
  · intro hne
    cases hh : (orderByPriorityDesc (pending_builds s)).head? with
    | none => exact absurd (orderByPriorityDesc_head_none hh) hne
    | some r0 =>
      obtain ⟨hmem, hmax⟩ := orderByPriorityDesc_head hh
      have hmem2 := List.mem_filter.mp hmem
      have hnone : r0.build_node = none := by
        have := hmem2.2
        simp only [Bool.and_eq_true, Option.isNone_iff_eq_none] at this
        exact this.2
      have hlen : (condUpdate s r0.id node).2 = 1 :=
        filter_id_pending_len_one h hmem2.1 hnone
      refine ⟨r0, hmem, hmax, ?_⟩
      have hget : objectsGet (condUpdate s r0.id node).1 r0.id
          = some { r0 with build_node := some node } :=
        find_after_condUpdate node h hmem2.1 hnone
      simp only [pick_build, hh, hlen, ne_eq, not_true_eq_false, if_false, hget,
        ite_false]

/-- Witness for `pick_build_claim_exclusive`: with record 1 already
assigned, two further racing claim steps both lose. -/
theorem pick_build_claim_exclusive_witness :
    allAssigned sampleClaimedStore 1 ∧
    (runClaims sampleClaimedStore [(1, "buildd-8"), (1, "buildd-9")]).2.filter
      (fun p => p.1 == 1) = [] :=
  ⟨by decide,
   (pick_build_claim_exclusive sampleClaimedStore [(1, "buildd-8"), (1, "buildd-9")] 1).2.1
     (by decide)⟩

/-- Witness for `pick_build_picks_highest_priority`: priorities [10, 50, 30]
in insertion order; the theorem instance yields the priority-50 record. -/
theorem pick_build_picks_highest_priority_witness :
    uniqueIds samplePendingStore ∧
    ∃ r0 ∈ pending_builds samplePendingStore,
      (∀ b ∈ pending_builds samplePendingStore, b.priority ≤ r0.priority) ∧
      pick_build (0 + 1) samplePendingStore "buildd-7" =
        some (some { r0 with build_node := some "buildd-7" },
              (condUpdate samplePendingStore r0.id "buildd-7").1) :=
  ⟨by decide,
   (pick_build_picks_highest_priority samplePendingStore "buildd-7" 0 (by decide)).2
     (by decide)⟩

/-! ## build propagates an AttributeError instead of completing (C3) -/

/-- **C3.** The claim says `build(record)` always completes with the record
in `SUCCESFULLY_BUILT` and the node in `SHUTTING_DOWN`, swallowing any
exception.  In the code the very first statement,
`self.update_state(BuildNode.BUILDING)` (models.py:624), evaluates
`self.id` on a model whose primary key is `name`, which raises
`AttributeError` outside the `try` block: for every command outcome and
every store, `build` propagates the exception and writes no state at
all. -/
theorem build_raises_attribute_error (cmdOk : Nat → Bool) (s : Store)
    (self : BuildNodeRow) (build_record : BuildRecordRow) :
    BuildNode.build cmdOk s self build_record =
      .error "AttributeError: BuildNode object has no attribute id" := rfl

/-! ## update_state frame and the BuildNode id defect (C10) -/

/-- **C10.** `BuildRecord.update_state` mutates only the `state` field of
the row it is called on (by-id durable write plus the cached object) and
leaves every other field and every other row and table unchanged; but on
`BuildNode` the claim fails: `BuildNode` has no `id` attribute (its
primary key is `name`), so `BuildNode.update_state` raises
`AttributeError` for every input and mutates nothing. -/
theorem update_state_frame (s : Store) (selfR : BuildRecordRow)
    (selfN : BuildNodeRow) (new_state : Nat) :
    BuildNode.update_state s selfN new_state =
      .error "AttributeError: BuildNode object has no attribute id" ∧
    (BuildRecord.update_state s selfR new_state).2 = { selfR with state := new_state } ∧
    (BuildRecord.update_state s selfR new_state).1.buildNodes = s.buildNodes ∧
    (BuildRecord.update_state s selfR new_state).1.keyPairs = s.keyPairs ∧
    (BuildRecord.update_state s selfR new_state).1.clouds = s.clouds ∧
    (BuildRecord.update_state s selfR new_state).1.cloudServers = s.cloudServers ∧
    (BuildRecord.update_state s selfR new_state).1.providerKeyPairs = s.providerKeyPairs ∧
    (BuildRecord.update_state s selfR new_state).1.keyring = s.keyring ∧
    (∀ r ∈ s.buildRecords, r.id ≠ selfR.id →
      r ∈ (BuildRecord.update_state s selfR new_state).1.buildRecords) ∧
    (∀ r ∈ s.buildRecords, r.id = selfR.id →
      { r with state := new_state } ∈
        (BuildRecord.update_state s selfR new_state).1.buildRecords) ∧
    (∀ r2 ∈ (BuildRecord.update_state s selfR new_state).1.buildRecords,
      ∃ r ∈ s.buildRecords, r2 = r ∨ r2 = { r with state := new_state }) := by
  refine ⟨rfl, rfl, rfl, rfl, rfl, rfl, rfl, rfl, ?_, ?_, ?_⟩
  · intro r hr hne
    refine List.mem_map.mpr ⟨r, hr, ?_⟩
    simp [hne]
  · intro r hr hid
    refine List.mem_map.mpr ⟨r, hr, ?_⟩
    simp [hid]
  · intro r2 hr2
    rcases List.mem_map.mp hr2 with ⟨r, hr, hmap⟩
    refine ⟨r, hr, ?_⟩
    by_cases hp : (r.id == selfR.id) = true
    · right; rw [← hmap]; simp [hp]
    · left; rw [← hmap]; simp [hp]

/-- Witness for `update_state_frame`: updating record 1 of the sample store
to `SUCCESFULLY_BUILT` leaves it present with only `state` changed. -/
theorem update_state_frame_witness :
    { sampleRec 1 50 (some "buildd-7") with
        state := BuildRecordState.SUCCESFULLY_BUILT } ∈
      (BuildRecord.update_state sampleClaimedStore (sampleRec 1 50 (some "buildd-7"))
        BuildRecordState.SUCCESFULLY_BUILT).1.buildRecords := by
  have h := update_state_frame sampleClaimedStore (sampleRec 1 50 (some "buildd-7"))
    ⟨"buildd-7", "c1", "buildd-7", 0, ""⟩ BuildRecordState.SUCCESFULLY_BUILT
  exact h.2.2.2.2.2.2.2.2.2.1 (sampleRec 1 50 (some "buildd-7")) (by decide) (by decide)

/-! ## Teardown postconditions (C5, C6) -/

lemma delete_err_of_not_mem (cfg : Config) (s : Store) (self : BuildNodeRow)
    (h : (self.cloud, self.cloud_node_id) ∉ s.cloudServers) :
    BuildNode.delete cfg s self =
      (s, some ("NotFound: instance " ++ self.cloud_node_id ++ " could not be found")) := by
  unfold BuildNode.delete cloud_server
  cases cfg.useFloatingIps <;> simp [h]

lemma delete_eq_of_mem (cfg : Config) (s : Store) (self : BuildNodeRow)
    (hmem : (self.cloud, self.cloud_node_id) ∈ s.cloudServers) :
    BuildNode.delete cfg s self =
      ({ s with
          cloudServers :=
            s.cloudServers.filter (fun p => p != (self.cloud, self.cloud_node_id)),
          keyring :=
            if self.signing_key_id ≠ "" then
              s.keyring.filter (fun k => k != self.signing_key_id)
            else s.keyring,
          buildRecords :=
            s.buildRecords.map (fun r =>
              if r.build_node == some self.name then { r with build_node := none }
              else r),
          buildNodes := s.buildNodes.filter (fun n => n.name != self.name) },
       none) := by
  unfold BuildNode.delete cloud_server
  cases cfg.useFloatingIps <;> simp [hmem]

lemma not_mem_filter_ne_pair {l : List (String × String)} {x : String × String} :
    x ∉ l.filter (fun p => p != x) := by
  intro hx
  have := (List.mem_filter.mp hx).2
  simp at this

lemma cleared_records_ne {l : List BuildRecordRow} {name : String} :
    ∀ r ∈ l.map (fun r =>
        if r.build_node == some name then { r with build_node := none } else r),
      r.build_node ≠ some name := by
  intro r hr
  rcases List.mem_map.mp hr with ⟨r0, _, hmap⟩
  by_cases hp : (r0.build_node == some name) = true
  · rw [← hmap]
    simp [hp]
  · rw [← hmap]
    simp only [hp, Bool.false_eq_true, if_false]
    simpa using hp

lemma cleared_nodes_ne {l : List BuildNodeRow} {name : String} :
    ∀ n ∈ l.filter (fun n => n.name != name), n.name ≠ name := by
  intro n hn
  have := (List.mem_filter.mp hn).2
  simpa using this

/-- **C5.** When a node is torn down (the single teardown path used by
every `prepare` failure), the deletion clears the `build_node` reference
on every `BuildRecord` still pointing at the node; a cleared record whose
state is still `NEEDS_BUILDING` (as it is throughout `prepare`) again
satisfies the `pending_builds` predicate, and no `BuildRecord`, nor any
durable `BuildNode` row, still references the dead node. -/
theorem delete_isolates_bootstrap_failure (cfg : Config) (s : Store)
    (self : BuildNodeRow)
    (hmem : (self.cloud, self.cloud_node_id) ∈ s.cloudServers) :
    (BuildNode.delete cfg s self).2 = none ∧
    (∀ r ∈ (BuildNode.delete cfg s self).1.buildRecords,
      r.build_node ≠ some self.name) ∧
    (∀ r ∈ s.buildRecords, r.build_node = some self.name →
      r.state = BuildRecordState.NEEDS_BUILDING →
      { r with build_node := none } ∈ pending_builds (BuildNode.delete cfg s self).1) ∧
    (∀ n ∈ (BuildNode.delete cfg s self).1.buildNodes, n.name ≠ self.name) := by
  rw [delete_eq_of_mem _ _ _ hmem]
  refine ⟨rfl, cleared_records_ne, ?_, cleared_nodes_ne⟩
  intro r hr hbn hstate
  have hmm : { r with build_node := none } ∈
      s.buildRecords.map (fun r =>
        if r.build_node == some self.name then { r with build_node := none }
        else r) := by
    refine List.mem_map.mpr ⟨r, hr, ?_⟩
    simp [hbn]
  refine List.mem_filter.mpr ⟨hmm, ?_⟩
  simp [hstate]

/-- Witness for `delete_isolates_bootstrap_failure`: deleting `buildd-7`
from the sample claimed store frees record 1 back into the pending set. -/
theorem delete_isolates_bootstrap_failure_witness :
    ("c1", "buildd-7") ∈ sampleClaimedStore.cloudServers ∧
    { sampleRec 1 50 (some "buildd-7") with build_node := none } ∈
      pending_builds
        (BuildNode.delete ⟨false⟩ sampleClaimedStore
          ⟨"buildd-7", "c1", "buildd-7", 0, ""⟩).1 :=
  ⟨by decide,
   (delete_isolates_bootstrap_failure ⟨false⟩ sampleClaimedStore
      ⟨"buildd-7", "c1", "buildd-7", 0, ""⟩ (by decide)).2.2.1
     (sampleRec 1 50 (some "buildd-7")) (by decide) (by decide) (by decide)⟩

/-- Counterexample for **C6**: the claim says a second `delete` does not
raise.  On the sample store the first `delete` succeeds, but the second
call's `self.cloud_server` lookup fails (the VM is no longer in the
provider inventory), so the second `delete` raises. -/
theorem delete_twice_counterexample :
    (BuildNode.delete ⟨false⟩ sampleClaimedStore
        ⟨"buildd-7", "c1", "buildd-7", 0, ""⟩).2 = none ∧
    (BuildNode.delete ⟨false⟩
        (BuildNode.delete ⟨false⟩ sampleClaimedStore
          ⟨"buildd-7", "c1", "buildd-7", 0, ""⟩).1
        ⟨"buildd-7", "c1", "buildd-7", 0, ""⟩).2
      = some "NotFound: instance buildd-7 could not be found" := by
  constructor <;> decide

/-- **C6 (amended).** Node teardown is idempotent on the durable store but
not exception-free: after a completed `delete`, every `BuildRecord`'s
`build_node` reference to the node is null and the durable `BuildNode` row
is absent, and a second `delete` leaves the durable store unchanged — but
it raises (the cloud-server lookup for the already-deleted VM fails)
rather than returning normally. -/
theorem delete_second_raises_but_store_idempotent (cfg : Config) (s s' : Store)
    (self : BuildNodeRow) (h : BuildNode.delete cfg s self = (s', none)) :
    BuildNode.delete cfg s' self =
      (s', some ("NotFound: instance " ++ self.cloud_node_id ++ " could not be found")) ∧
    (∀ r ∈ s'.buildRecords, r.build_node ≠ some self.name) ∧
    (∀ n ∈ s'.buildNodes, n.name ≠ self.name) := by
  by_cases hmem : (self.cloud, self.cloud_node_id) ∈ s.cloudServers
  · rw [delete_eq_of_mem _ _ _ hmem] at h
    have hs' := congrArg Prod.fst h
    simp only at hs'
    rw [← hs']
    exact ⟨delete_err_of_not_mem _ _ _ not_mem_filter_ne_pair,
           cleared_records_ne, cleared_nodes_ne⟩
  · rw [delete_err_of_not_mem _ _ _ hmem] at h
    simp at h

/-- Witness for `delete_second_raises_but_store_idempotent` on the sample
claimed store. -/
theorem delete_second_raises_witness :
    BuildNode.delete ⟨false⟩
        (BuildNode.delete ⟨false⟩ sampleClaimedStore
          ⟨"buildd-7", "c1", "buildd-7", 0, ""⟩).1
        ⟨"buildd-7", "c1", "buildd-7", 0, ""⟩ =
      ((BuildNode.delete ⟨false⟩ sampleClaimedStore
          ⟨"buildd-7", "c1", "buildd-7", 0, ""⟩).1,
       some "NotFound: instance buildd-7 could not be found") :=
  (delete_second_raises_but_store_idempotent ⟨false⟩ sampleClaimedStore
      (BuildNode.delete ⟨false⟩ sampleClaimedStore
        ⟨"buildd-7", "c1", "buildd-7", 0, ""⟩).1
      ⟨"buildd-7", "c1", "buildd-7", 0, ""⟩ (by decide)).1

/-! ## The remote transport raises on non-zero exit status (C7) -/

lemma string_length_beq_zero_false {c : String} (h : c ≠ "") :
    (c.length == 0) = false := by
  cases c with
  | mk data =>
    cases data with
    | nil => exact absurd rfl h
    | cons a l => rfl

lemma runCmdGen_eq (cmd : String) {chunks : List String} (status : Int)
    (h : ∀ c ∈ chunks, c ≠ "") :
    runCmdGen cmd chunks status =
      (chunks, if status ≠ 0 then some ("Command " ++ cmd ++ " failed") else none) := by
  induction chunks with
  | nil => rfl
  | cons c rest ih =>
    have hc := string_length_beq_zero_false (h c (List.mem_cons_self _ _))
    have ihr := ih (fun d hd => h d (List.mem_cons_of_mem _ hd))
    simp only [runCmdGen, hc, Bool.false_eq_true, if_false, ihr]

/-- **C7.** For every remote command over a channel delivering non-empty
data chunks: a non-zero remote exit status makes the `run_cmd` generator
raise `Exception('Command ... failed')` rather than finish normally, and
every chunk emitted before the failure was already yielded to the consumer
(the partial output is available for diagnostics, and `_run_cmd`
re-raises); a zero exit status never raises: the generator yields the
full combined stream and `_run_cmd` returns it accumulated. -/
theorem run_cmd_raises_on_nonzero_exit (cmd : String) (chunks : List String)
    (status : Int) (h : ∀ c ∈ chunks, c ≠ "") :
    (status ≠ 0 →
      runCmdGen cmd chunks status = (chunks, some ("Command " ++ cmd ++ " failed")) ∧
      runCmdAccum cmd chunks status = .error ("Command " ++ cmd ++ " failed")) ∧
    (status = 0 →
      runCmdGen cmd chunks status = (chunks, none) ∧
      runCmdAccum cmd chunks status = .ok (String.join chunks)) := by
  have hg := runCmdGen_eq cmd status h
  constructor
  · intro hs
    rw [if_pos hs] at hg
    exact ⟨hg, by simp only [runCmdAccum, hg]⟩
  · intro hs
    rw [if_neg (by simp [hs])] at hg
    exact ⟨hg, by simp only [runCmdAccum, hg]⟩

/-- Witness for `run_cmd_raises_on_nonzero_exit`: an sbuild invocation that
exits 2 after emitting one chunk of output. -/
theorem run_cmd_raises_on_nonzero_exit_witness :
    runCmdGen "sbuild" ["partial output\n"] 2 =
      (["partial output\n"], some "Command sbuild failed") ∧
    runCmdAccum "sbuild" ["partial output\n"] 2 = .error "Command sbuild failed" :=
  (run_cmd_raises_on_nonzero_exit "sbuild" ["partial output\n"] 2 (by decide)).1
    (by decide)

/-! ## Leasing caches exactly one KeyPair per cloud (C8) -/

lemma save_keyPairs (s : Store) (self : BuildNodeRow) :
    (BuildNode.save s self).keyPairs = s.keyPairs := by
  unfold BuildNode.save
  split <;> rfl

lemma start_new_rest_keyPairs {cfg : Config} {rand : Nat → Nat} {fuel : Nat}
    {floatOk : Bool} {s : Store} {cloudName : String} {i : Nat} {s' : Store}
    {res : Except String BuildNodeRow}
    (h : start_new_rest cfg rand fuel floatOk s cloudName i = some (s', res)) :
    s'.keyPairs = s.keyPairs := by
  unfold start_new_rest at h
  cases hpf : pickFreshName
      (serverNames s cloudName ++ s.buildNodes.map (fun n => n.name)) rand fuel i with
  | none => rw [hpf] at h; simp at h
  | some p =>
    obtain ⟨nodeName, j⟩ := p
    rw [hpf] at h
    by_cases hfb : (cfg.useFloatingIps && !floatOk) = true
    · simp only [hfb, if_true] at h
      have := congrArg Prod.fst (Option.some.injEq .. ▸ h : _)
      simp only [Option.some.injEq, Prod.mk.injEq] at h
      rw [← h.1]
    · simp only [hfb, Bool.false_eq_true, if_false, Option.some.injEq,
        Prod.mk.injEq] at h
      rw [← h.1, save_keyPairs]

/-- **C8.** Leasing a node on a cloud with zero cached `KeyPair` rows
creates exactly one `KeyPair` row for that cloud; leasing when one is
already cached creates none (the `KeyPair` table is untouched); and the
at-most-one-cached-KeyPair invariant is preserved by every lease — in both
lease outcomes, success and floating-ip failure. -/
theorem start_new_keypair_cached (cfg : Config) (rand : Nat → Nat) (fuel : Nat)
    (floatOk : Bool) (s : Store) (cloudName : String) (s' : Store)
    (res : Except String BuildNodeRow)
    (h : BuildNode.start_new cfg rand fuel floatOk s cloudName = some (s', res)) :
    (keypair_set_count s cloudName = 0 → keypair_set_count s' cloudName = 1) ∧
    (1 ≤ keypair_set_count s cloudName → s'.keyPairs = s.keyPairs) ∧
    (keypair_set_count s cloudName ≤ 1 → keypair_set_count s' cloudName ≤ 1) := by
  unfold BuildNode.start_new at h
  by_cases hcnt : keypair_set_count s cloudName < 1
  · rw [if_pos hcnt] at h
    have hzero : keypair_set_count s cloudName = 0 := by omega
    cases hpf : pickFreshName (providerKeyPairNames s cloudName) rand fuel 0 with
    | none => rw [hpf] at h; simp at h
    | some p =>
      obtain ⟨kpName, i⟩ := p
      rw [hpf] at h
      have hkp := start_new_rest_keyPairs h
      have hone : keypair_set_count s' cloudName = 1 := by
        simp only [keypair_set_count, hkp, List.filter_append]
        have : keypair_set_count s cloudName = 0 := hzero
        simp only [keypair_set_count] at this
        rw [List.length_append, this]
        simp
      exact ⟨fun _ => hone, fun hge => by omega, fun _ => by omega⟩
  · rw [if_neg hcnt] at h
    have hkp := start_new_rest_keyPairs h
    have hsame : keypair_set_count s' cloudName = keypair_set_count s cloudName := by
      simp [keypair_set_count, hkp]
    exact ⟨fun hz => by omega, fun _ => hkp, fun hle => by omega⟩

/-- The store produced by a first lease on `samplePendingStore` (random
supply `fun i => i`, no floating ips): keypair `buildd-0` created and
cached, node `buildd-1` leased. -/
def sampleLeasedStore : Store :=
  ⟨[sampleRec 1 10 none, sampleRec 2 50 none, sampleRec 3 30 none],
   [⟨"buildd-1", "c1", "buildd-1", BuildNodeState.NEW, ""⟩],
   [⟨"c1", "buildd-0", "priv-buildd-0", "pub-buildd-0"⟩],
   ["c1"],
   [("c1", "buildd-7"), ("c1", "buildd-1")],
   [("c1", "buildd-0")],
   []⟩

/-- Witness for `start_new_keypair_cached`: one lease on a cloud with zero
cached keypairs ends with exactly one. -/
theorem start_new_keypair_cached_witness :
    keypair_set_count samplePendingStore "c1" = 0 ∧
    keypair_set_count sampleLeasedStore "c1" = 1 :=
  ⟨by decide,
   (start_new_keypair_cached ⟨false⟩ (fun i => i) 3 true samplePendingStore "c1"
      sampleLeasedStore (.ok ⟨"buildd-1", "c1", "buildd-1", BuildNodeState.NEW, ""⟩)
      (by decide)).1 (by decide)⟩

/-! ## prepare: connectivity wait, exception policy, deletion on failure (C4, C9) -/

lemma save_cloudServers (s : Store) (self : BuildNodeRow) :
    (BuildNode.save s self).cloudServers = s.cloudServers := by
  unfold BuildNode.save
  split <;> rfl

lemma find?_map_replace {l : List BuildNodeRow} {self : BuildNodeRow}
    (h : l.any (fun n => n.name == self.name) = true) :
    (l.map (fun n => if n.name == self.name then self else n)).find?
      (fun n => n.name == self.name) = some self := by
  induction l with
  | nil => simp at h
  | cons a tl ih =>
    by_cases hp : (a.name == self.name) = true
    · have hmap : ((a :: tl).map (fun n => if n.name == self.name then self else n)) =
          self :: (tl.map (fun n => if n.name == self.name then self else n)) := by
        rw [List.map_cons, if_pos hp]
      rw [hmap, List.find?_cons_of_pos _ (by simp)]
    · simp only [List.map_cons, hp, Bool.false_eq_true, if_false]
      rw [List.find?_cons_of_neg _ (by simpa using hp)]
      apply ih
      simpa [List.any_cons, hp] using h

lemma find?_append_self {l : List BuildNodeRow} {self : BuildNodeRow}
    (h : l.any (fun n => n.name == self.name) = false) :
    (l ++ [self]).find? (fun n => n.name == self.name) = some self := by
  induction l with
  | nil => simp
  | cons a tl ih =>
    rw [List.any_cons, Bool.or_eq_false_iff] at h
    rw [List.cons_append, List.find?_cons_of_neg _ (by simp [h.1])]
    exact ih h.2

lemma find?_save (s : Store) (self : BuildNodeRow) :
    (BuildNode.save s self).buildNodes.find? (fun n => n.name == self.name) =
      some self := by
  unfold BuildNode.save
  by_cases hany : s.buildNodes.any (fun n => n.name == self.name) = true
  · rw [if_pos hany]
    exact find?_map_replace hany
  · rw [if_neg hany]
    exact find?_append_self (Bool.not_eq_true _ ▸ hany)

lemma connectivity_wait_never {probe : Nat → Bool} (h : ∀ n, probe n = false) :
    ∀ (fuel n slept : Nat), connectivity_wait probe fuel n slept = none := by
  intro fuel
  induction fuel with
  | zero => intro n slept; rfl
  | succ f ih =>
    intro n slept
    simp only [connectivity_wait, h n, Bool.false_eq_true, if_false]
    exact ih (n + 1) (slept + 5)

lemma connectivity_wait_first {probe : Nat → Bool} :
    ∀ (k fuel n slept : Nat), k < fuel → probe (n + k) = true →
      (∀ j, j < k → probe (n + j) = false) →
      connectivity_wait probe fuel n slept = some (n + k, slept + 5 * k) := by
  intro k
  induction k with
  | zero =>
    intro fuel n slept hf hp _
    cases fuel with
    | zero => omega
    | succ f =>
      have hp0 : probe n = true := by simpa using hp
      simp [connectivity_wait, hp0]
  | succ k ih =>
    intro fuel n slept hf hp hj
    cases fuel with
    | zero => omega
    | succ f =>
      have h0 : probe n = false := by simpa using hj 0 (Nat.succ_pos k)
      simp only [connectivity_wait, h0, Bool.false_eq_true, if_false]
      have hp2 : probe (n + 1 + k) = true := by
        have : n + 1 + k = n + (k + 1) := by omega
        rw [this]; exact hp
      have hj2 : ∀ j, j < k → probe (n + 1 + j) = false := by
        intro j hjk
        have : n + 1 + j = n + (j + 1) := by omega
        rw [this]; exact hj (j + 1) (by omega)
      have h1 : n + 1 + k = n + (k + 1) := by omega
      have h2 : slept + 5 + 5 * k = slept + 5 * (k + 1) := by omega
      rw [ih f (n + 1) (slept + 5) (by omega) hp2 hj2, h1, h2]

lemma prepare_none_of_conn_none {cfg : Config} {fuel : Nat} {probe steps : Nat → Bool}
    {keyIdOut : Option String} {s : Store} {self : BuildNodeRow} {recb : BuildRecordRow}
    (h : connectivity_wait probe fuel 0 0 = none) :
    prepare cfg fuel probe steps keyIdOut s self recb = none := by
  simp [prepare, h]

lemma prepare_success (cfg : Config) (fuel : Nat) (probe steps : Nat → Bool)
    (kid : String) (s : Store) (self : BuildNodeRow) (recb : BuildRecordRow)
    (k slept : Nat)
    (hk : connectivity_wait probe fuel 0 0 = some (k, slept))
    (hsteps : ∀ i, steps i = true) :
    prepare cfg fuel probe steps (some kid) s self recb =
      some (prepareReadyStore s self kid,
            { self with state := BuildNodeState.READY, signing_key_id := kid },
            none, decide (0 < k)) := by
  simp only [prepare, prepareReadyStore, hk, hsteps, Bool.and_self, if_true]

lemma find?_save_name (s : Store) (self : BuildNodeRow) (nm : String)
    (hnm : self.name = nm) :
    (BuildNode.save s self).buildNodes.find? (fun n => n.name == nm) = some self := by
  subst hnm
  exact find?_save s self

lemma prepareReadyStore_find (s : Store) (self : BuildNodeRow) (kid : String) :
    (prepareReadyStore s self kid).buildNodes.find? (fun n => n.name == self.name) =
      some { self with state := BuildNodeState.READY, signing_key_id := kid } := by
  unfold prepareReadyStore
  exact find?_save_name _ _ _ rfl

/-- **C4 (amended).** With the leased VM present in the cloud inventory and
the connectivity wait eventually succeeding, `prepare` catches every
exception rather than propagating one to the caller (its error slot is
`none` in every outcome); an exception from the identity probe inside the
connectivity wait is caught there and retried without deletion, while a
failure in any step after
connectivity is established — package update or installation,
configuration fetch or apply, key generation, key-id parsing, key export,
local key import, or the final configuration republish — triggers
immediate node deletion: no durable `BuildNode` row with the node's name
survives and no `BuildRecord` still references it. -/
theorem prepare_catches_and_deletes (cfg : Config) (fuel : Nat)
    (probe steps : Nat → Bool) (keyIdOut : Option String) (s : Store)
    (self : BuildNodeRow) (recb : BuildRecordRow) (k slept : Nat)
    (hk : connectivity_wait probe fuel 0 0 = some (k, slept))
    (hmem : (self.cloud, self.cloud_node_id) ∈ s.cloudServers) :
    ∃ s' self' raised,
      prepare cfg fuel probe steps keyIdOut s self recb =
        some (s', self', none, raised) ∧
      ((steps 0 && steps 1 && steps 2 && steps 3 && steps 4 && steps 5 &&
          keyIdOut.isSome && steps 6 && steps 7 && steps 8) = false →
        (∀ n ∈ s'.buildNodes, n.name ≠ self.name) ∧
        (∀ r ∈ s'.buildRecords, r.build_node ≠ some self.name)) := by
  simp only [prepare, hk]
  by_cases h05 : (steps 0 && steps 1 && steps 2 && steps 3 && steps 4 && steps 5) = true
  · cases keyIdOut with
    | none =>
      simp only [h05, if_true]
      rw [delete_eq_of_mem _ _ _
        (by rw [save_cloudServers, save_cloudServers]; exact hmem)]
      exact ⟨_, _, true, rfl, fun _ => ⟨cleared_nodes_ne, cleared_records_ne⟩⟩
    | some kid =>
      by_cases h67 : (steps 6 && steps 7) = true
      · by_cases h8 : steps 8 = true
        · simp only [h05, h67, h8, if_true]
          refine ⟨_, _, decide (0 < k), rfl, ?_⟩
          intro habs
          exfalso
          have h67c : steps 6 = true ∧ steps 7 = true := by
            rw [Bool.and_eq_true] at h67
            exact h67
          simp [h05, h67c.1, h67c.2, h8] at habs
        · have h8f : steps 8 = false := Bool.eq_false_iff.mpr h8
          simp only [h05, h67, h8f, if_true, Bool.false_eq_true, if_false]
          rw [delete_eq_of_mem _ _ _
            (by rw [save_cloudServers]
                show (self.cloud, self.cloud_node_id) ∈
                  (BuildNode.save
                    (BuildNode.save s { self with state := BuildNodeState.BOOTING })
                    { self with state := BuildNodeState.PREPARING }).cloudServers
                rw [save_cloudServers, save_cloudServers]
                exact hmem)]
          exact ⟨_, _, true, rfl, fun _ => ⟨cleared_nodes_ne, cleared_records_ne⟩⟩
      · have h67f : (steps 6 && steps 7) = false := Bool.eq_false_iff.mpr h67
        simp only [h05, h67f, if_true, Bool.false_eq_true, if_false]
        rw [delete_eq_of_mem _ _ _
          (by rw [save_cloudServers, save_cloudServers]; exact hmem)]
        exact ⟨_, _, true, rfl, fun _ => ⟨cleared_nodes_ne, cleared_records_ne⟩⟩
  · have h05f : (steps 0 && steps 1 && steps 2 && steps 3 && steps 4 && steps 5) = false :=
      Bool.eq_false_iff.mpr h05
    simp only [h05f, Bool.false_eq_true, if_false]
    rw [delete_eq_of_mem _ _ _
      (by rw [save_cloudServers, save_cloudServers]; exact hmem)]
    exact ⟨_, _, true, rfl, fun _ => ⟨cleared_nodes_ne, cleared_records_ne⟩⟩

/-- Witness for `prepare_catches_and_deletes`: connectivity succeeds at
once, the `puppet apply` step (step 3) raises, and the node with a claimed
record is prepared: the run returns normally with no error and the failure
branch deletes the node and frees the record. -/
theorem prepare_catches_and_deletes_witness :
    ∃ s' self' raised,
      prepare ⟨false⟩ 1 (fun _ => true) (fun i => i != 3) (some "ABCD1234")
          sampleClaimedStore ⟨"buildd-7", "c1", "buildd-7", 0, ""⟩
          (sampleRec 1 50 (some "buildd-7")) =
        some (s', self', none, raised) ∧
      ((((fun i : Nat => i != 3) 0 && (fun i : Nat => i != 3) 1 &&
          (fun i : Nat => i != 3) 2 && (fun i : Nat => i != 3) 3 &&
          (fun i : Nat => i != 3) 4 && (fun i : Nat => i != 3) 5 &&
          (some "ABCD1234" : Option String).isSome && (fun i : Nat => i != 3) 6 &&
          (fun i : Nat => i != 3) 7 && (fun i : Nat => i != 3) 8) = false) →
        (∀ n ∈ s'.buildNodes, n.name ≠ "buildd-7") ∧
        (∀ r ∈ s'.buildRecords, r.build_node ≠ some "buildd-7")) :=
  prepare_catches_and_deletes ⟨false⟩ 1 (fun _ => true) (fun i => i != 3)
    (some "ABCD1234") sampleClaimedStore ⟨"buildd-7", "c1", "buildd-7", 0, ""⟩
    (sampleRec 1 50 (some "buildd-7")) 0 0 (by decide) (by decide)

/-- Counterexample for **C4** as stated: the claim covers "every exception
raised at any point during prepare — from the connectivity wait through
... — the node is immediately deleted".  In this run the identity probe
raises once (attempt 0) before succeeding, so an exception was raised
during `prepare` (`raisedAny = true`, last component), yet no deletion
happens: `prepare` completes with the error slot `none` and the node still
present in state `READY`. -/
theorem prepare_probe_exception_counterexample :
    (prepare ⟨false⟩ 2 (fun n => n != 0) (fun _ => true) (some "ABCD1234")
        sampleClaimedStore ⟨"buildd-7", "c1", "buildd-7", 0, ""⟩
        (sampleRec 1 50 (some "buildd-7"))).map
      (fun out => (out.2.2.2, out.2.2.1,
        out.1.buildNodes.map (fun n => (n.name, n.state)))) =
      some (true, none, [("buildd-7", BuildNodeState.READY)]) := by decide

/-- **C9.** The connectivity wait at the start of `prepare` retries the
trivial identity probe with a fixed 5-second backoff and no timeout or
attempt ceiling: if the node never accepts connections the loop — and with
it `prepare` — never terminates, whatever fuel bound is imposed; if the
probe first succeeds at attempt `k` the loop exits right there, having
slept `5 * k` seconds; and probe exceptions are caught inside the loop and
do not trigger node deletion — a run whose probes failed `k` times before
succeeding still completes `prepare` normally with the node saved in
`READY`. -/
theorem connectivity_wait_unbounded_retry (probe : Nat → Bool) :
    ((∀ n, probe n = false) →
      ∀ (cfg : Config) (fuel : Nat) (steps : Nat → Bool) (keyIdOut : Option String)
        (s : Store) (self : BuildNodeRow) (recb : BuildRecordRow),
        connectivity_wait probe fuel 0 0 = none ∧
        prepare cfg fuel probe steps keyIdOut s self recb = none) ∧
    (∀ k fuel, k < fuel → probe k = true → (∀ j, j < k → probe j = false) →
      connectivity_wait probe fuel 0 0 = some (k, 5 * k)) ∧
    (∀ (cfg : Config) (fuel k : Nat) (steps : Nat → Bool) (kid : String)
        (s : Store) (self : BuildNodeRow) (recb : BuildRecordRow),
      k < fuel → probe k = true → (∀ j, j < k → probe j = false) →
      (∀ i, steps i = true) →
      prepare cfg fuel probe steps (some kid) s self recb =
        some (prepareReadyStore s self kid,
              { self with state := BuildNodeState.READY, signing_key_id := kid },
              none, decide (0 < k)) ∧
      (prepareReadyStore s self kid).buildNodes.find? (fun n => n.name == self.name) =
        some { self with state := BuildNodeState.READY, signing_key_id := kid }) := by
  refine ⟨?_, ?_, ?_⟩
  · intro hnever cfg fuel steps keyIdOut s self recb
    exact ⟨connectivity_wait_never hnever fuel 0 0,
           prepare_none_of_conn_none (connectivity_wait_never hnever fuel 0 0)⟩
  · intro k fuel hkf hp hj
    have h := connectivity_wait_first k fuel 0 0 hkf (by simpa using hp)
      (fun j hj2 => by simpa using hj j hj2)
    simpa using h
  · intro cfg fuel k steps kid s self recb hkf hp hj hsteps
    have hcw : connectivity_wait probe fuel 0 0 = some (k, 5 * k) := by
      have h := connectivity_wait_first k fuel 0 0 hkf (by simpa using hp)
        (fun j hj2 => by simpa using hj j hj2)
      simpa using h
    exact ⟨prepare_success cfg fuel probe steps kid s self recb k (5 * k) hcw hsteps,
           prepareReadyStore_find s self kid⟩

/-- Witness for `connectivity_wait_unbounded_retry`: a probe failing only
on attempt 0 makes the wait exit at attempt 1 after one 5-second sleep. -/
theorem connectivity_wait_unbounded_retry_witness :
    connectivity_wait (fun n => n != 0) 2 0 0 = some (1, 5 * 1) :=
  (connectivity_wait_unbounded_retry (fun n => n != 0)).2.1 1 2 (by decide) (by decide)
    (by decide)

end Repomgmt
